import Mathlib

/-!
Verification of the InstaForms dynamic-form backend (Django/DRF application).

This development shallowly embeds the data model (`api/models.py`), the
serializers (`api/serializers.py`) and the form/submission views
(`api/views.py`) of the repository, and proves or refutes the claims of the
natural-language specification against that embedding.

The persistent store is modelled as explicit lists of rows; every operation
is a pure function from a store (and a request) to a result and a new store.
Django/DRF behaviour that matters here and is modelled faithfully:

- `FormSubmissionSerializer.create` performs `FormSubmission.objects.create`
  followed by one `FieldResponse.objects.create` per response, with NO
  enclosing transaction: a foreign-key failure on the n-th response leaves
  the submission row and the first n-1 response rows in the store.
- `FieldResponse.field` is a plain foreign key to `FormField`: the database
  only checks that the referenced field EXISTS, not that it belongs to the
  submission's form.
- DRF serializers ignore input keys that are not declared writable fields:
  `FormSubmissionSerializer.Meta.fields` lists `id, form, submitted_at,
  responses` (with `form` and `submitted_at` read-only), so the
  `ip_address` entry the view puts into `submission_data` is dropped.
- A DRF `CharField` backing a model text field has `required=True`,
  `allow_blank=False` and `trim_whitespace=True`: a value is rejected iff
  it is blank after trimming, and is stored trimmed.
- `FormField.Meta.ordering = [ordKey]` with `ordKey = "order"` only: the
  queryset is some permutation of the form's fields that is nondecreasing
  in `order`; the relative order of rows with equal `order` is left to the
  database.
-/

/-- A row of the `Form` model (`api/models.py`): title, owner, active flag.
Timestamps are irrelevant to the claims and omitted. -/
structure FormRow where
  id : Nat
  title : String
  created_by : Nat
  is_active : Bool
deriving DecidableEq, Repr

/-- A row of the `FormField` model: parent form, label, field type, required
flag, placeholder, options JSON (modelled as an optional list of strings,
`none` standing for SQL NULL / absent), display order. -/
structure FieldRow where
  id : Nat
  formId : Nat
  label : String
  field_type : String
  required : Bool
  placeholder : String
  options : Option (List String)
  order : Nat
deriving DecidableEq, Repr

/-- A row of the `FormSubmission` model: parent form and optional source IP.
`submitted_at` is assigned by the store and irrelevant to the claims. -/
structure SubmissionRow where
  id : Nat
  formId : Nat
  ip_address : Option String
deriving DecidableEq, Repr

/-- A row of the `FieldResponse` model: parent submission, referenced field,
raw text value. -/
structure ResponseRow where
  id : Nat
  submissionId : Nat
  fieldId : Nat
  value : String
deriving DecidableEq, Repr

/-- The relational store: one list per table, plus auto-increment counters
for the two tables this development inserts into. -/
structure Store where
  forms : List FormRow
  fields : List FieldRow
  submissions : List SubmissionRow
  responses : List ResponseRow
  nextSubmissionId : Nat
  nextResponseId : Nat
deriving DecidableEq, Repr

/-- One entry of the submission payload (`FieldResponseSerializer` writable
fields): `field_id` and `value`. -/
structure ResponseEntry where
  field_id : Nat
  value : String
deriving DecidableEq, Repr

/-- The request metadata the public submit view reads: the
`HTTP_X_FORWARDED_FOR` header and `REMOTE_ADDR`. -/
structure RequestMeta where
  http_x_forwarded_for : Option String
  remote_addr : Option String
deriving DecidableEq, Repr

/-- A request to `POST /api/public/forms/(pk)/submit/`: metadata plus the
`responses` list of the JSON body (`request.data.get` with default `[]`). -/
structure SubmitRequest where
  meta : RequestMeta
  responses : List ResponseEntry
deriving DecidableEq, Repr

/-- Outcome of the submit view: HTTP 201, 400 (serializer errors),
404 (`get_object` miss on the active-only queryset), or an uncaught
database `IntegrityError` surfacing as HTTP 500. -/
inductive SubmitStatus where
  | created
  | badRequest
  | notFound
  | serverError
deriving DecidableEq, Repr

/-- Whitespace stripping as Python's `str.strip()`, which DRF applies to
`CharField` input (`trim_whitespace=True`): drop whitespace from both ends. -/
def pyStrip (s : String) : String :=
  String.mk (((s.data.dropWhile Char.isWhitespace).reverse.dropWhile Char.isWhitespace).reverse)

/-- `FIELD_TYPES` of `FormField` (`api/models.py`): the first component of
each choice pair, the values stored in `field_type`. -/
def FIELD_TYPES : List String :=
  ["text", "email", "number", "textarea", "select", "radio", "checkbox", "date", "file"]

/-- Client-IP computation of `PublicFormViewSet.submit`: first entry of
`X-Forwarded-For` when present, else `REMOTE_ADDR`. -/
def clientIp (meta : RequestMeta) : Option String :=
  match meta.http_x_forwarded_for with
  | some xff => some ((xff.splitOn ",").headD "")
  | none => meta.remote_addr

/-- Validation of one payload entry by `FieldResponseSerializer`:
`field_id` is a plain `IntegerField` (any integer passes; no existence or
ownership check) and `value` is a required non-blank text field
(`trim_whitespace=True`). -/
def fieldResponseValid (e : ResponseEntry) : Bool :=
  (pyStrip e.value) != ""

/-- Validation of the whole body by `FormSubmissionSerializer.is_valid`:
the declared writable fields are just `responses` (nested, `many=True`,
empty list allowed); `form` is read-only and `ip_address` is not declared,
so both are ignored. No required-field, type-format or field-ownership
check exists anywhere in the serializer. -/
def formSubmissionValid (entries : List ResponseEntry) : Bool :=
  entries.all fieldResponseValid

/-- One `FieldResponse.objects.create`: succeeds iff the referenced field id
exists in the `FormField` table (the only check the foreign key makes); on
success appends the row with the trimmed value. Returns `none` on
`IntegrityError`. -/
def createFieldResponse (st : Store) (subId : Nat) (e : ResponseEntry) : Option Store :=
  if st.fields.any (fun f => f.id == e.field_id) then
    some { st with
      responses := st.responses ++
        [⟨st.nextResponseId, subId, e.field_id, (pyStrip e.value)⟩],
      nextResponseId := st.nextResponseId + 1 }
  else
    none

/-- The response-insertion loop of `FormSubmissionSerializer.create`.
There is NO enclosing transaction (the docstring claims one, the code has
none), so when the n-th insert raises, the first n-1 inserted rows stay in
the store: the failure case returns the store built so far with `false`. -/
def insertResponses (st : Store) (subId : Nat) : List ResponseEntry → Store × Bool
  | [] => (st, true)
  | e :: rest =>
      match createFieldResponse st subId e with
      | some st1 => insertResponses st1 subId rest
      | none => (st, false)

/-- `FormSubmissionSerializer.create` with the `form` object passed through
`serializer.save(form=form)`: create the `FormSubmission` row (its
`ip_address` column gets its model default NULL, since `ip_address` never
reaches `validated_data`), then insert each response in turn. -/
def formSubmissionCreate (st : Store) (formId : Nat) (entries : List ResponseEntry) :
    Store × Bool :=
  let sub : SubmissionRow := ⟨st.nextSubmissionId, formId, none⟩
  let st1 : Store := { st with
    submissions := st.submissions ++ [sub],
    nextSubmissionId := st.nextSubmissionId + 1 }
  insertResponses st1 sub.id entries

/-- `get_object` of `PublicFormViewSet`: a point lookup on the queryset
`Form.objects.filter(is_active=True)`; a miss raises Http404. -/
def getActiveForm (st : Store) (pk : Nat) : Option FormRow :=
  st.forms.find? (fun f => f.id == pk && f.is_active)

/-- `PublicFormViewSet.submit`: resolve the form on the active-only
queryset, compute the client IP, build `submission_data` (whose `form` and
`ip_address` keys the serializer ignores), validate, and save. A
database-level failure during save is uncaught and surfaces as a server
error with the partial writes kept. -/
def publicSubmit (st : Store) (pk : Nat) (req : SubmitRequest) : SubmitStatus × Store :=
  match getActiveForm st pk with
  | none => (.notFound, st)
  | some form =>
      let _ip : Option String := clientIp req.meta
      if formSubmissionValid req.responses then
        match formSubmissionCreate st form.id req.responses with
        | (st1, true) => (.created, st1)
        | (st1, false) => (.serverError, st1)
      else
        (.badRequest, st)

/-- An `is_active` update through the owner CRUD surface
(`FormViewSet` update with `FormSerializer`, where `is_active` is
writable): set the flag on the form with the given id. -/
def setFormActive (st : Store) (pk : Nat) (b : Bool) : Store :=
  { st with forms := st.forms.map (fun f => if f.id == pk then { f with is_active := b } else f) }

/-- `FormViewSet` retrieve: `get_queryset` returns only the caller's own
forms (`Form.objects.filter(created_by=request.user)`), and `get_object`
looks the pk up inside that queryset; `none` is the 404 outcome. -/
def formRetrieve (st : Store) (userId : Nat) (pk : Nat) : Option FormRow :=
  (st.forms.filter (fun f => f.created_by == userId)).find? (fun f => f.id == pk)

/-- The request body of `POST /api/forms/(pk)/add_field/`, mirroring the
writable fields of `FormFieldSerializer`; optional keys model absent JSON
keys, which fall back to the model defaults. -/
structure FieldDefRequest where
  label : String
  field_type : String
  required : Option Bool
  placeholder : Option String
  options : Option (List String)
  order : Option Nat
deriving DecidableEq, Repr

/-- Validation performed by `FormFieldSerializer.is_valid`, as generated by
the `ModelSerializer` from the model: `label` required, non-blank, at most
200 characters; `field_type` must be one of the `FIELD_TYPES` choices;
`placeholder` optional with max length 200; `required`, `options` and
`order` optional. The serializer contains no check relating `options` to
the field type: `options` may be absent, null or empty for any type. -/
def formFieldValid (r : FieldDefRequest) : Bool :=
  (pyStrip r.label) != "" && r.label.length ≤ 200 &&
  FIELD_TYPES.contains r.field_type &&
  (match r.placeholder with
   | some p => p.length ≤ 200
   | none => true)

/-- `add_field` of `FormViewSet`: validate with `FormFieldSerializer` and on
success persist the field attached to the form, applying the model defaults
for absent keys (`required=False`, `placeholder=""`, `order=0`). Returns
the new store on 201, `none` on 400; the field id is the next free id. -/
def addField (st : Store) (formId : Nat) (newId : Nat) (r : FieldDefRequest) :
    Option Store :=
  if formFieldValid r then
    some { st with fields := st.fields ++
      [⟨newId, formId, (pyStrip r.label), r.field_type, r.required.getD false,
        (r.placeholder.getD ""), r.options, r.order.getD 0⟩] }
  else
    none

/-- The fields of one form, in table order (insertion order, ascending id
for auto-increment ids). -/
def fieldsOfForm (st : Store) (formId : Nat) : List FieldRow :=
  st.fields.filter (fun f => f.formId == formId)

/-- The set of results the database may return for the `FormField` queryset
under `Meta.ordering` (ORDER BY the `order` column alone): any permutation
of the form's fields that is nondecreasing in `order`. The relative order
of rows with equal `order` is implementation-defined. -/
def djangoFieldOrdering (st : Store) (formId : Nat) (out : List FieldRow) : Prop :=
  out.Perm (fieldsOfForm st formId) ∧ out.Pairwise (fun a b => a.order ≤ b.order)

/-- The ordering the specification asserts: strictly ascending in the pair
`(order, id)` (ascending order, ties broken by ascending id). -/
def sortedByOrderThenId (out : List FieldRow) : Prop :=
  out.Pairwise (fun a b => a.order < b.order ∨ (a.order = b.order ∧ a.id < b.id))

instance (st : Store) (formId : Nat) (out : List FieldRow) :
    Decidable (djangoFieldOrdering st formId out) := by
  unfold djangoFieldOrdering; infer_instance

instance (out : List FieldRow) : Decidable (sortedByOrderThenId out) := by
  unfold sortedByOrderThenId; infer_instance

/-- The referential-integrity invariant of §3 of the specification: every
stored `FieldResponse` references a field belonging to the same form as the
submission that owns the response. -/
def responsesWellScoped (st : Store) : Prop :=
  ∀ r ∈ st.responses, ∀ sub ∈ st.submissions, r.submissionId = sub.id →
    ∀ f ∈ st.fields, r.fieldId = f.id → f.formId = sub.formId

instance (st : Store) : Decidable (responsesWellScoped st) := by
  unfold responsesWellScoped; infer_instance

/-! ### Concrete fixtures

A small store mirroring the round-trip example of §8 of the specification:
one active form owned by user 7, with a required text field `Name` (id 1)
and an optional number field `Age` (id 2). -/

/-- The `Contact` form: id 1, owner 7, active. -/
def contactForm : FormRow := ⟨1, "Contact", 7, true⟩

/-- Required text field `Name`, id 1, on form 1. -/
def nameField : FieldRow := ⟨1, 1, "Name", "text", true, "", none, 1⟩

/-- Optional number field `Age`, id 2, on form 1. -/
def ageField : FieldRow := ⟨2, 1, "Age", "number", false, "", none, 2⟩

/-- Store holding the `Contact` form with its two fields and no
submissions. -/
def baseStore : Store :=
  { forms := [contactForm], fields := [nameField, ageField],
    submissions := [], responses := [],
    nextSubmissionId := 1, nextResponseId := 1 }

/-- Request metadata with only a `REMOTE_ADDR`. -/
def plainMeta : RequestMeta := ⟨none, some "203.0.113.9"⟩

/-! ### Claims C1-C4: the submission pipeline, evaluated at failing inputs

`FormSubmissionSerializer` validates nothing beyond per-entry integer
`field_id` and non-blank `value`, and its `create` runs outside any
transaction, so the guarantees the specification states for the Validator
and the SubmissionStore do not hold on this code. -/

/-- Claim C1 (code bug): submitting two responses where the second
references a nonexistent field id leaves a PARTIAL submission in the store:
the `FormSubmission` row and the first `FieldResponse` row persist while the
second insert raises an uncaught `IntegrityError` (server error). The
serializer's own docstring promises a single transaction; none exists. -/
theorem c1_failed_row_leaves_partial_submission :
    baseStore.submissions = [] ∧ baseStore.responses = [] ∧
    publicSubmit baseStore 1 ⟨plainMeta, [⟨1, "Ada"⟩, ⟨99, "x"⟩]⟩ =
      (SubmitStatus.serverError,
        { baseStore with
            submissions := [⟨1, 1, none⟩],
            responses := [⟨1, 1, 1, "Ada"⟩],
            nextSubmissionId := 2, nextResponseId := 2 }) := by
  decide

/-- Claim C2 (code bug): the form's `Name` field is declared required, the
payload contains no entry at all, and yet the submission is accepted (HTTP
201) and a `FormSubmission` row is persisted: no `MissingRequiredField`
check exists anywhere in the code. -/
theorem c2_missing_required_field_accepted :
    nameField ∈ baseStore.fields ∧ nameField.required = true ∧
    publicSubmit baseStore 1 ⟨plainMeta, []⟩ =
      (SubmitStatus.created,
        { baseStore with submissions := [⟨1, 1, none⟩], nextSubmissionId := 2 }) := by
  decide

/-- Claim C3 (code bug): the `Age` field has type `number` and the required
`Name` field is absent, yet the payload value `not-a-number` is accepted
verbatim and persisted: no `InvalidNumberFormat` (nor any per-type) check
exists, so the claimed exhaustive two-error report is never produced. -/
theorem c3_invalid_number_accepted :
    ageField.field_type = "number" ∧ nameField.required = true ∧
    publicSubmit baseStore 1 ⟨plainMeta, [⟨2, "not-a-number"⟩]⟩ =
      (SubmitStatus.created,
        { baseStore with
            submissions := [⟨1, 1, none⟩],
            responses := [⟨1, 1, 2, "not-a-number"⟩],
            nextSubmissionId := 2, nextResponseId := 2 }) := by
  decide

/-- Claim C4 (code bug): a payload referencing field id 99, which resolves
to no field at all, is not rejected with `UnknownField`: serializer
validation passes (a bare `IntegerField`), the `FormSubmission` row is
persisted, and the response insert then raises an uncaught
`IntegrityError` (server error), leaving the orphan submission visible. -/
theorem c4_unknown_field_id_persists_submission :
    (∀ f ∈ baseStore.fields, f.id ≠ 99) ∧
    publicSubmit baseStore 1 ⟨plainMeta, [⟨99, "x"⟩]⟩ =
      (SubmitStatus.serverError,
        { baseStore with submissions := [⟨1, 1, none⟩], nextSubmissionId := 2 }) := by
  decide

/-! ### Claim C6: field-definition validation -/

/-- A `select` field-definition request supplying no options payload. -/
def chooseReq : FieldDefRequest := ⟨"Choose", "select", none, none, none, none⟩

/-- Claim C6 counterexample: a `select` field with NO options payload is
accepted and persisted (with `options = none`), although the claim requires
rejection with `InvalidFieldDefinition` whenever a choice-typed field lacks
a non-empty options payload: `FormFieldSerializer` never inspects
`options`. -/
theorem c6_select_without_options_accepted :
    chooseReq.field_type = "select" ∧ chooseReq.options = none ∧
    formFieldValid chooseReq = true ∧
    addField baseStore 1 3 chooseReq =
      some { baseStore with fields := baseStore.fields ++
        [⟨3, 1, "Choose", "select", false, "", none, 0⟩] } := by
  decide

/-! ### Claim C7: field ordering -/

/-- Field with id 1 and order 5 on form 1. -/
def dupOrderA : FieldRow := ⟨1, 1, "A", "text", false, "", none, 5⟩

/-- Field with id 2 and the same order 5 on form 1. -/
def dupOrderB : FieldRow := ⟨2, 1, "B", "text", false, "", none, 5⟩

/-- Store with two fields sharing the same `order` value. -/
def dupOrderStore : Store :=
  { forms := [contactForm], fields := [dupOrderA, dupOrderB],
    submissions := [], responses := [],
    nextSubmissionId := 1, nextResponseId := 1 }

/-- Claim C7 counterexample: `Meta.ordering` on `FormField` is by the
`order` column alone, so the database may return the two order-5 fields as
`[id 2, id 1]`: that output satisfies the queryset ordering contract yet is
not sorted by the pair `(order, id)`; the id tie-break the claim asserts is
not requested by the code. -/
theorem c7_tie_break_not_enforced :
    djangoFieldOrdering dupOrderStore 1 [dupOrderB, dupOrderA] ∧
    ¬ sortedByOrderThenId [dupOrderB, dupOrderA] := by
  decide

/-! ### Claim C8: response-to-form referential scoping -/

/-- A second form, owned by user 8. -/
def otherForm : FormRow := ⟨2, "Other", 8, true⟩

/-- A field that belongs to form 2, not to form 1. -/
def strayField : FieldRow := ⟨10, 2, "Stray", "text", false, "", none, 0⟩

/-- Store holding both forms; field 10 belongs to form 2. -/
def twoFormStore : Store :=
  { forms := [contactForm, otherForm],
    fields := [nameField, ageField, strayField],
    submissions := [], responses := [],
    nextSubmissionId := 1, nextResponseId := 1 }

/-- Claim C8 counterexample: submitting to form 1 a response referencing
field 10, which belongs to form 2, succeeds (the foreign key only checks
existence), and the resulting store violates the same-form invariant: the
stored response's field belongs to a different form than its submission. -/
theorem c8_cross_form_response_stored :
    strayField.formId = 2 ∧ contactForm.id = 1 ∧
    (publicSubmit twoFormStore 1 ⟨plainMeta, [⟨10, "stray"⟩]⟩).1 = SubmitStatus.created ∧
    ¬ responsesWellScoped (publicSubmit twoFormStore 1 ⟨plainMeta, [⟨10, "stray"⟩]⟩).2 := by
  decide

/-! ### Structural lemmas about the submission pipeline -/

/-- Inserting responses never touches the `FormField` table. -/
theorem insertResponses_fields :
    ∀ (es : List ResponseEntry) (st : Store) (subId : Nat),
      (insertResponses st subId es).1.fields = st.fields := by
  intro es
  induction es with
  | nil => intro st subId; rfl
  | cons e rest ih =>
      intro st subId
      simp only [insertResponses, createFieldResponse]
      by_cases h : st.fields.any (fun f => f.id == e.field_id)
      · simp only [h, if_pos]
        exact ih _ subId
      · simp [h]

/-- Inserting responses never touches the `FormSubmission` table. -/
theorem insertResponses_submissions :
    ∀ (es : List ResponseEntry) (st : Store) (subId : Nat),
      (insertResponses st subId es).1.submissions = st.submissions := by
  intro es
  induction es with
  | nil => intro st subId; rfl
  | cons e rest ih =>
      intro st subId
      simp only [insertResponses, createFieldResponse]
      by_cases h : st.fields.any (fun f => f.id == e.field_id)
      · simp only [h, if_pos]
        exact ih _ subId
      · simp [h]

/-- When every entry references an existing field id, the insertion loop
reports success. -/
theorem insertResponses_snd_true :
    ∀ (es : List ResponseEntry) (st : Store) (subId : Nat),
      (∀ e ∈ es, st.fields.any (fun f => f.id == e.field_id) = true) →
      (insertResponses st subId es).2 = true := by
  intro es
  induction es with
  | nil => intro st subId _; rfl
  | cons e rest ih =>
      intro st subId h
      have he : st.fields.any (fun f => f.id == e.field_id) = true :=
        h e (List.mem_cons_self e rest)
      simp only [insertResponses, createFieldResponse, he, if_pos]
      exact ih _ subId (fun x hx => h x (List.mem_cons_of_mem e hx))

/-- When every entry references an existing field id, the whole
`FormSubmissionSerializer.create` succeeds. -/
theorem formSubmissionCreate_snd_true (st : Store) (formId : Nat)
    (entries : List ResponseEntry)
    (h : ∀ e ∈ entries, st.fields.any (fun f => f.id == e.field_id) = true) :
    (formSubmissionCreate st formId entries).2 = true := by
  unfold formSubmissionCreate
  exact insertResponses_snd_true entries _ _ h

/-- Whatever happens inside `create`, the submissions table afterwards is
the old table extended by the single new row, whose `ip_address` is NULL. -/
theorem formSubmissionCreate_submissions (st : Store) (formId : Nat)
    (entries : List ResponseEntry) :
    (formSubmissionCreate st formId entries).1.submissions =
      st.submissions ++ [⟨st.nextSubmissionId, formId, none⟩] := by
  unfold formSubmissionCreate
  rw [insertResponses_submissions]

/-! ### Claim C5: the active flag gates submission -/

/-- After deactivating form `pk`, the active-only queryset of the public
surface no longer resolves `pk`: `get_object` misses. -/
theorem getActiveForm_deactivated (st : Store) (pk : Nat) :
    getActiveForm (setFormActive st pk false) pk = none := by
  unfold getActiveForm setFormActive
  apply List.find?_eq_none.mpr
  intro x hx
  rw [List.mem_map] at hx
  obtain ⟨f, _, rfl⟩ := hx
  by_cases hid : (f.id == pk)
  · simp [hid]
  · simp [hid]

/-- After a deactivate-then-reactivate round trip on form `pk`, the
active-only queryset resolves `pk` again (provided some form with that id
exists), to a row with the same id that is active. -/
theorem getActiveForm_reactivated_aux :
    ∀ (l : List FormRow) (pk : Nat), (∃ g ∈ l, g.id = pk) →
      ∃ f2, ((l.map (fun f => if f.id == pk then { f with is_active := false } else f)).map
          (fun f => if f.id == pk then { f with is_active := true } else f)).find?
          (fun f => f.id == pk && f.is_active) = some f2 := by
  intro l
  induction l with
  | nil => intro pk h; obtain ⟨g, hg, _⟩ := h; exact absurd hg (List.not_mem_nil g)
  | cons h t ih =>
      intro pk hex
      by_cases hid : (h.id == pk)
      · refine ⟨⟨h.id, h.title, h.created_by, true⟩, ?_⟩
        simp only [List.map_cons]
        rw [if_pos hid]
        rw [if_pos (show ((⟨h.id, h.title, h.created_by, false⟩ : FormRow).id == pk) = true from hid)]
        exact List.find?_cons_of_pos _ (by simp [hid])
      · obtain ⟨g, hg, hgpk⟩ := hex
        rcases List.mem_cons.mp hg with rfl | hgt
        · exact absurd (beq_iff_eq.mpr hgpk) hid
        · obtain ⟨f2, hf2⟩ := ih pk ⟨g, hgt, hgpk⟩
          refine ⟨f2, ?_⟩
          simp only [List.map_cons]
          rw [if_neg hid, if_neg hid]
          rw [List.find?_cons_of_neg _ (by simp [hid])]
          exact hf2

/-- Claim C5 (confirmed): for a valid payload (non-blank values, existing
field ids), submitting to an active form succeeds; after deactivating the
form, the same submit fails with the not-found outcome that the active-only
queryset produces for inactive forms (the code's realization of
`FormNotAcceptingSubmissions`, cf. §7(c) of the specification) and the
store is completely unchanged; after reactivating, the submit succeeds
again. -/
theorem c5_active_flag_gates_submission (st : Store) (pk : Nat) (req : SubmitRequest)
    (f : FormRow)
    (hget : getActiveForm st pk = some f)
    (hvals : ∀ e ∈ req.responses, fieldResponseValid e = true)
    (hflds : ∀ e ∈ req.responses, ∃ fl ∈ st.fields, fl.id = e.field_id) :
    (publicSubmit st pk req).1 = SubmitStatus.created
    ∧ publicSubmit (setFormActive st pk false) pk req =
        (SubmitStatus.notFound, setFormActive st pk false)
    ∧ (publicSubmit (setFormActive (setFormActive st pk false) pk true) pk req).1 =
        SubmitStatus.created := by
  have hv : formSubmissionValid req.responses = true := List.all_eq_true.mpr hvals
  have hany : ∀ e ∈ req.responses, st.fields.any (fun fl => fl.id == e.field_id) = true := by
    intro e he
    obtain ⟨fl, hmem, heq⟩ := hflds e he
    exact List.any_eq_true.mpr ⟨fl, hmem, beq_iff_eq.mpr heq⟩
  refine ⟨?_, ?_, ?_⟩
  · have hok : (formSubmissionCreate st f.id req.responses).2 = true :=
      formSubmissionCreate_snd_true st f.id req.responses hany
    unfold publicSubmit
    rw [hget]
    simp only [hv, if_pos]
    rcases hfc : formSubmissionCreate st f.id req.responses with ⟨st1, b⟩
    rw [hfc] at hok
    simp only at hok
    subst hok
    rfl
  · unfold publicSubmit
    rw [getActiveForm_deactivated]
  · have hfmem : f ∈ st.forms := by
      unfold getActiveForm at hget
      exact List.mem_of_find?_eq_some hget
    have hfpk : f.id = pk := by
      unfold getActiveForm at hget
      have := List.find?_some hget
      rw [Bool.and_eq_true] at this
      exact beq_iff_eq.mp this.1
    obtain ⟨f2, hf2⟩ := getActiveForm_reactivated_aux st.forms pk ⟨f, hfmem, hfpk⟩
    have hget2 : getActiveForm (setFormActive (setFormActive st pk false) pk true) pk =
        some f2 := by
      unfold getActiveForm setFormActive
      exact hf2
    have hok : (formSubmissionCreate (setFormActive (setFormActive st pk false) pk true)
        f2.id req.responses).2 = true :=
      formSubmissionCreate_snd_true _ f2.id req.responses hany
    unfold publicSubmit
    rw [hget2]
    simp only [hv, if_pos]
    rcases hfc : formSubmissionCreate (setFormActive (setFormActive st pk false) pk true)
        f2.id req.responses with ⟨st1, b⟩
    rw [hfc] at hok
    simp only at hok
    subst hok
    rfl

/-- Every response row present after the insertion loop either was already
stored or is one of the newly inserted rows: it carries the new submission
id and the field id of some payload entry. -/
theorem insertResponses_responses_characterization :
    ∀ (es : List ResponseEntry) (st : Store) (subId : Nat),
      ∀ r ∈ (insertResponses st subId es).1.responses,
        r ∈ st.responses ∨ (r.submissionId = subId ∧ ∃ e ∈ es, r.fieldId = e.field_id) := by
  intro es
  induction es with
  | nil => intro st subId r hr; exact Or.inl hr
  | cons e rest ih =>
      intro st subId r hr
      simp only [insertResponses, createFieldResponse] at hr
      by_cases h : st.fields.any (fun f => f.id == e.field_id)
      · rw [if_pos h] at hr
        rcases ih _ subId r hr with hold | ⟨hsub, e2, he2, hf⟩
        · rcases List.mem_append.mp hold with hold2 | hnew
          · exact Or.inl hold2
          · rcases List.mem_singleton.mp hnew with rfl
            exact Or.inr ⟨rfl, e, List.mem_cons_self e rest, rfl⟩
        · exact Or.inr ⟨hsub, e2, List.mem_cons_of_mem e he2, hf⟩
      · rw [if_neg h] at hr
        exact Or.inl hr

/-- The same-form invariant is preserved by `FormSubmissionSerializer.create`
whenever every payload entry that resolves to an existing field resolves to
a field of the target form, and the auto-increment submission id is fresh. -/
theorem formSubmissionCreate_preserves_scoping (st : Store) (formId : Nat)
    (entries : List ResponseEntry)
    (hinv : responsesWellScoped st)
    (hfreshR : ∀ r ∈ st.responses, r.submissionId ≠ st.nextSubmissionId)
    (hfreshS : ∀ sub ∈ st.submissions, sub.id ≠ st.nextSubmissionId)
    (hscope : ∀ e ∈ entries, ∀ fl ∈ st.fields, fl.id = e.field_id → fl.formId = formId) :
    responsesWellScoped (formSubmissionCreate st formId entries).1 := by
  intro r hr sub hsub hrs fl hfl hrf
  have hfields : (formSubmissionCreate st formId entries).1.fields = st.fields := by
    unfold formSubmissionCreate
    rw [insertResponses_fields]
  have hsubs : (formSubmissionCreate st formId entries).1.submissions =
      st.submissions ++ [⟨st.nextSubmissionId, formId, none⟩] :=
    formSubmissionCreate_submissions st formId entries
  rw [hfields] at hfl
  rw [hsubs] at hsub
  have hrchar : r ∈ st.responses ∨
      (r.submissionId = st.nextSubmissionId ∧ ∃ e ∈ entries, r.fieldId = e.field_id) := by
    have := insertResponses_responses_characterization entries
      { st with
        submissions := st.submissions ++ [⟨st.nextSubmissionId, formId, none⟩],
        nextSubmissionId := st.nextSubmissionId + 1 }
      st.nextSubmissionId r
    exact this hr
  rcases List.mem_append.mp hsub with hsubOld | hsubNew
  · rcases hrchar with hrOld | ⟨hrNew, _⟩
    · exact hinv r hrOld sub hsubOld hrs fl hfl hrf
    · exact absurd (hrs ▸ hrNew ▸ rfl : sub.id = st.nextSubmissionId).symm
        (Ne.symm (hfreshS sub hsubOld))
  · rcases List.mem_singleton.mp hsubNew with rfl
    rcases hrchar with hrOld | ⟨_, e, he, hf⟩
    · exact absurd hrs (hfreshR r hrOld)
    · exact hscope e he fl hfl (hrf.symm.trans hf ▸ rfl)

/-- Claim C8 amended (proved): the code does not re-check that a referenced
field belongs to the target form, so the same-form invariant is preserved
by a public submit only under the precondition that every payload field id
resolving to an existing field resolves to a field of the target form
(plus freshness of the auto-increment submission id). Without that
precondition the invariant can be violated, as
the cross-form counterexample shows. -/
theorem c8_scoping_conditionally_preserved (st : Store) (pk : Nat) (req : SubmitRequest)
    (hinv : responsesWellScoped st)
    (hfreshR : ∀ r ∈ st.responses, r.submissionId ≠ st.nextSubmissionId)
    (hfreshS : ∀ sub ∈ st.submissions, sub.id ≠ st.nextSubmissionId)
    (hscope : ∀ e ∈ req.responses, ∀ fl ∈ st.fields, fl.id = e.field_id → fl.formId = pk) :
    responsesWellScoped (publicSubmit st pk req).2 := by
  unfold publicSubmit
  cases hget : getActiveForm st pk with
  | none => exact hinv
  | some f =>
      have hfpk : f.id = pk := by
        unfold getActiveForm at hget
        have := List.find?_some hget
        rw [Bool.and_eq_true] at this
        exact beq_iff_eq.mp this.1
      by_cases hv : formSubmissionValid req.responses
      · simp only [hv, if_pos]
        have hpres := formSubmissionCreate_preserves_scoping st f.id req.responses
          hinv hfreshR hfreshS (by rw [hfpk]; exact hscope)
        rcases hfc : formSubmissionCreate st f.id req.responses with ⟨st1, b⟩
        rw [hfc] at hpres
        cases b
        · exact hpres
        · exact hpres
      · simp only [if_neg hv]
        exact hinv

/-! ### Claim C9: ownership is indistinguishable from absence -/

/-- Claim C9 (confirmed): on the owner-scoped queryset
(`Form.objects.filter(created_by=request.user)`), a request for a form id
owned by a different user and a request for an id that exists on no form
produce the very same outcome, the not-found miss: ownership cannot be
inferred from the response. -/
theorem c9_cross_owner_same_as_absent (st : Store) (u : Nat) (pkOther pkMissing : Nat)
    (hOther : ∀ f ∈ st.forms, f.id = pkOther → f.created_by ≠ u)
    (hMissing : ∀ f ∈ st.forms, f.id ≠ pkMissing) :
    formRetrieve st u pkOther = formRetrieve st u pkMissing
    ∧ formRetrieve st u pkOther = none := by
  have h1 : formRetrieve st u pkOther = none := by
    unfold formRetrieve
    apply List.find?_eq_none.mpr
    intro f hf hpk
    rw [List.mem_filter] at hf
    exact hOther f hf.1 (beq_iff_eq.mp hpk) (beq_iff_eq.mp hf.2)
  have h2 : formRetrieve st u pkMissing = none := by
    unfold formRetrieve
    apply List.find?_eq_none.mpr
    intro f hf hpk
    rw [List.mem_filter] at hf
    exact hMissing f hf.1 (beq_iff_eq.mp hpk)
  exact ⟨h1.trans h2.symm, h1⟩

/-! ### Claim C10: the computed client IP is never stored -/

/-- Claim C10 (confirmed): even when the view computes a client address
(from `X-Forwarded-For` or `REMOTE_ADDR`) and places it into
`submission_data`, every submission row present after a successful public
submit either predates the call or has a NULL `ip_address`: the serializer
does not declare `ip_address`, so the computed address is discarded. -/
theorem c10_stored_ip_is_null (st : Store) (pk : Nat) (req : SubmitRequest) (a : String)
    (_hip : clientIp req.meta = some a)
    (_hcreated : (publicSubmit st pk req).1 = SubmitStatus.created) :
    ∀ sub ∈ (publicSubmit st pk req).2.submissions,
      sub ∈ st.submissions ∨ sub.ip_address = none := by
  intro sub hsub
  unfold publicSubmit at hsub
  cases hget : getActiveForm st pk with
  | none => rw [hget] at hsub; exact Or.inl hsub
  | some f =>
      rw [hget] at hsub
      by_cases hv : formSubmissionValid req.responses
      · simp only [hv, if_pos] at hsub
        rcases hfc : formSubmissionCreate st f.id req.responses with ⟨st1, b⟩
        rw [hfc] at hsub
        have hsubs : st1.submissions =
            st.submissions ++ [⟨st.nextSubmissionId, f.id, none⟩] := by
          have h := formSubmissionCreate_submissions st f.id req.responses
          rw [hfc] at h
          exact h
        cases b
        · rw [hsubs] at hsub
          rcases List.mem_append.mp hsub with hold | hnew
          · exact Or.inl hold
          · rcases List.mem_singleton.mp hnew with rfl
            exact Or.inr rfl
        · rw [hsubs] at hsub
          rcases List.mem_append.mp hsub with hold | hnew
          · exact Or.inl hold
          · rcases List.mem_singleton.mp hnew with rfl
            exact Or.inr rfl
      · simp only [if_neg hv] at hsub
        exact Or.inl hsub

/-- Claim C6 amended (proved): for a field-definition request whose label
and placeholder are themselves well-formed, the `FormFieldSerializer`
accepts iff the declared type is in the `FIELD_TYPES` enumeration; the
options payload is never consulted, so choice-typed fields with absent or
empty options are accepted (the counterexample persists one). -/
theorem c6_rejected_iff_type_unknown (r : FieldDefRequest)
    (hl1 : pyStrip r.label ≠ "")
    (hl2 : r.label.length ≤ 200)
    (hp : ∀ p, r.placeholder = some p → p.length ≤ 200) :
    formFieldValid r = true ↔ r.field_type ∈ FIELD_TYPES := by
  unfold formFieldValid
  simp only [Bool.and_eq_true, bne_iff_ne, ne_eq, decide_eq_true_eq]
  constructor
  · rintro ⟨⟨⟨-, -⟩, h3⟩, -⟩
    simpa using h3
  · intro h3
    refine ⟨⟨⟨hl1, hl2⟩, by simpa using h3⟩, ?_⟩
    cases hpc : r.placeholder with
    | none => simp
    | some p => simpa using hp p hpc

/-- Claim C7 amended (proved): any result the database may return for the
fields queryset is a permutation of the form's fields whose sequence of
`order` values is exactly the sorted sequence of the form's `order`
values: the display order is determined up to the relative order of fields
sharing an `order` value, which `Meta.ordering` leaves unspecified. -/
theorem c7_order_sequence_is_sorted (st : Store) (formId : Nat) (out : List FieldRow)
    (h : djangoFieldOrdering st formId out) :
    out.Perm (fieldsOfForm st formId) ∧
    out.map (fun f => f.order) =
      ((fieldsOfForm st formId).mergeSort (fun a b => a.order ≤ b.order)).map
        (fun f => f.order) := by
  obtain ⟨hperm, hsorted⟩ := h
  refine ⟨hperm, ?_⟩
  have hms : ((fieldsOfForm st formId).mergeSort (fun a b => a.order ≤ b.order)).Perm
      (fieldsOfForm st formId) := List.mergeSort_perm _ _
  have hperm2 : (out.map (fun f => f.order)).Perm
      (((fieldsOfForm st formId).mergeSort (fun a b => a.order ≤ b.order)).map
        (fun f => f.order)) :=
    List.Perm.map _ (hperm.trans hms.symm)
  have hs1 : List.Sorted (· ≤ ·) (out.map (fun f => f.order)) :=
    List.Pairwise.map _ (fun a b hab => hab) hsorted
  have hs2 : List.Sorted (· ≤ ·)
      (((fieldsOfForm st formId).mergeSort (fun a b => a.order ≤ b.order)).map
        (fun f => f.order)) := by
    have hms2 := @List.sorted_mergeSort FieldRow
      (fun a b => decide (a.order ≤ b.order))
      (by intro a b c hab hbc; simp at hab hbc ⊢; omega)
      (by intro a b; simp [Nat.le_total])
      (fieldsOfForm st formId)
    refine List.Pairwise.map _ ?_ hms2
    intro a b hab
    simpa using hab
  exact List.eq_of_perm_of_sorted hperm2 hs1 hs2

/-! ### Witnesses: each hypothesized claim theorem applied at a concrete
input -/

/-- Witness for claim C5 at the concrete `Contact` form and a valid
payload. -/
theorem c5_witness :
    getActiveForm baseStore 1 = some contactForm
    ∧ (∀ e ∈ [(⟨1, "Ada"⟩ : ResponseEntry)], fieldResponseValid e = true)
    ∧ (publicSubmit baseStore 1 ⟨plainMeta, [⟨1, "Ada"⟩]⟩).1 = SubmitStatus.created
    ∧ publicSubmit (setFormActive baseStore 1 false) 1 ⟨plainMeta, [⟨1, "Ada"⟩]⟩ =
        (SubmitStatus.notFound, setFormActive baseStore 1 false)
    ∧ (publicSubmit (setFormActive (setFormActive baseStore 1 false) 1 true) 1
        ⟨plainMeta, [⟨1, "Ada"⟩]⟩).1 = SubmitStatus.created :=
  ⟨by decide, by decide,
   (c5_active_flag_gates_submission baseStore 1 ⟨plainMeta, [⟨1, "Ada"⟩]⟩ contactForm
      (by decide) (by decide) (by decide)).1,
   (c5_active_flag_gates_submission baseStore 1 ⟨plainMeta, [⟨1, "Ada"⟩]⟩ contactForm
      (by decide) (by decide) (by decide)).2.1,
   (c5_active_flag_gates_submission baseStore 1 ⟨plainMeta, [⟨1, "Ada"⟩]⟩ contactForm
      (by decide) (by decide) (by decide)).2.2⟩

/-- Witness for claim C6 (amended) at the `select`-typed request. -/
theorem c6_witness :
    pyStrip chooseReq.label ≠ ""
    ∧ chooseReq.label.length ≤ 200
    ∧ (∀ p, chooseReq.placeholder = some p → p.length ≤ 200)
    ∧ (formFieldValid chooseReq = true ↔ chooseReq.field_type ∈ FIELD_TYPES) :=
  ⟨by decide, by decide, by intro p hp; simp [chooseReq] at hp,
   c6_rejected_iff_type_unknown chooseReq (by decide) (by decide)
     (by intro p hp; simp [chooseReq] at hp)⟩

/-- Witness for claim C7 (amended) at a concrete allowed queryset result. -/
theorem c7_witness :
    djangoFieldOrdering dupOrderStore 1 [dupOrderA, dupOrderB]
    ∧ ([dupOrderA, dupOrderB].Perm (fieldsOfForm dupOrderStore 1)
       ∧ [dupOrderA, dupOrderB].map (fun f => f.order) =
          ((fieldsOfForm dupOrderStore 1).mergeSort (fun a b => a.order ≤ b.order)).map
            (fun f => f.order)) :=
  ⟨by decide,
   c7_order_sequence_is_sorted dupOrderStore 1 [dupOrderA, dupOrderB] (by decide)⟩

/-- Witness for claim C8 (amended) at the `Contact` form with an in-form
payload. -/
theorem c8_witness :
    responsesWellScoped baseStore
    ∧ (∀ r ∈ baseStore.responses, r.submissionId ≠ baseStore.nextSubmissionId)
    ∧ (∀ sub ∈ baseStore.submissions, sub.id ≠ baseStore.nextSubmissionId)
    ∧ (∀ e ∈ [(⟨1, "Ada"⟩ : ResponseEntry)], ∀ fl ∈ baseStore.fields,
        fl.id = e.field_id → fl.formId = 1)
    ∧ responsesWellScoped (publicSubmit baseStore 1 ⟨plainMeta, [⟨1, "Ada"⟩]⟩).2 :=
  ⟨by decide, by decide, by decide, by decide,
   c8_scoping_conditionally_preserved baseStore 1 ⟨plainMeta, [⟨1, "Ada"⟩]⟩
     (by decide) (by decide) (by decide) (by decide)⟩

/-- Witness for claim C9: user 7 requesting user 8's form id 2 and the
nonexistent id 42 observe the same miss. -/
theorem c9_witness :
    (∀ f ∈ twoFormStore.forms, f.id = 2 → f.created_by ≠ 7)
    ∧ (∀ f ∈ twoFormStore.forms, f.id ≠ 42)
    ∧ formRetrieve twoFormStore 7 2 = formRetrieve twoFormStore 7 42
    ∧ formRetrieve twoFormStore 7 2 = none :=
  ⟨by decide, by decide,
   (c9_cross_owner_same_as_absent twoFormStore 7 2 42 (by decide) (by decide)).1,
   (c9_cross_owner_same_as_absent twoFormStore 7 2 42 (by decide) (by decide)).2⟩

/-- Witness for claim C10: the computed client address exists, the submit
succeeds, and every persisted submission row has a NULL `ip_address`. -/
theorem c10_witness :
    clientIp plainMeta = some "203.0.113.9"
    ∧ (publicSubmit baseStore 1 ⟨plainMeta, [⟨1, "Ada"⟩]⟩).1 = SubmitStatus.created
    ∧ ∀ sub ∈ (publicSubmit baseStore 1 ⟨plainMeta, [⟨1, "Ada"⟩]⟩).2.submissions,
        sub ∈ baseStore.submissions ∨ sub.ip_address = none :=
  ⟨by decide, by decide,
   c10_stored_ip_is_null baseStore 1 ⟨plainMeta, [⟨1, "Ada"⟩]⟩ "203.0.113.9"
     (by decide) (by decide)⟩
